import Mathlib

/-
Shallow embedding of `app/aws-lambda/lambda_function.py` from the
kommo-whatsapp-integration repository.

Modelling conventions:
- Time is carried as microseconds since the epoch (`Nat`).  Python's
  `datetime.now().timestamp()` is a float of seconds; the code stores
  `int(ts)` (truncation, i.e. `Nat` division by 1000000 on the
  microsecond count) and compares the float `now` against the stored
  integer `expires_at` (modelled as `nowUs ≤ expires_at * 1000000`).
- The DynamoDB click-log table is an external key-value store keyed by
  `(pk, expires_at)` (partition key + sort key, per the table schema the
  handler writes).  `put_item` replaces any item with the same key;
  the query of `update_lead_handler` (pk = "click", filter matched =
  false, descending by sort key, limit 1) is modelled as "most recent
  unmatched entry", the store interface the spec describes.
- External collaborators (DynamoDB writes, the Kommo CRM client, the
  Google Ads client) can each raise at their call site; the `Ext` record
  of success flags is the oracle deciding which calls succeed.  Each
  attempted collaborator call is recorded in an `Effect` trace.
- Python exceptions that no handler catches (`KeyError` from an enum or
  dict lookup, `AttributeError` from `None.upper()`) are modelled as
  `LambdaError`; the handlers only catch `RuntimeError`, which the
  services are assumed to raise, so a failing service call lands in the
  `except` branch while lookup errors escape the handler.
-/

namespace KommoWhatsapp

/-- Modelled from the spec: `GoogleAdsService.ConversionType`, a closed
name-keyed enumeration of business events (lead-created,
message-received, qualified), defined in `services/google_ads_service.py`
which is not part of the provided sources; only `MESSAGE_RECEIVED` is
referenced by name in `lambda_function.py`. -/
inductive ConversionType where
  | LEAD_CREATED
  | MESSAGE_RECEIVED
  | QUALIFIED
deriving DecidableEq, Repr, Fintype

/-- Modelled from the spec: the display name each enum member carries,
used in upload payloads and logs. -/
def ConversionType.conversion_name : ConversionType → String
  | .LEAD_CREATED => "Lead Created"
  | .MESSAGE_RECEIVED => "Message Received"
  | .QUALIFIED => "Qualified"

/-- Python's `str.upper()` on the ASCII query-string values used here,
written as a map over the character list (structural, so proofs can
evaluate it; the library's `String.toUpper` is the same map but defined
by well-founded recursion over positions). -/
def upperAscii (s : String) : String := ⟨s.data.map Char.toUpper⟩

/-- Modelled from the spec: Python's `ConversionType[name]` member
lookup; `none` models the `KeyError` raised on an unrecognized name. -/
def conversionTypeOfName : String → Option ConversionType
  | "LEAD_CREATED" => some .LEAD_CREATED
  | "MESSAGE_RECEIVED" => some .MESSAGE_RECEIVED
  | "QUALIFIED" => some .QUALIFIED
  | _ => none

/-- One item of the `{TABLE_PREFIX}_click_logs` DynamoDB table, with the
attribute shape written by `persist_clicklog_to_db`. -/
structure Item where
  pk : String
  page_path : Option String
  gclid : Option String
  gbraid : Option String
  created_at : Nat
  expires_at : Nat
  matched : Bool
deriving DecidableEq, Repr

/-- JSON body of `POST /outbound-click-logs` as read by
`click_log_handler`: `body.get("gclid")`, `body.get("gbraid")`,
`body.get("page_path")`. -/
structure ClickBody where
  gclid : Option String
  gbraid : Option String
  page_path : Option String
deriving DecidableEq, Repr

/-- Python truthiness of `body.get(...)`: `None` and the empty string
are falsy (the source guards with `if not (gclid or gbraid)`). -/
def truthy : Option String → Bool
  | none => false
  | some s => !(s == "")

/-- HTTP-style handler response `{"statusCode": ..., "message": ...}`. -/
structure Response where
  statusCode : Nat
  message : String
deriving DecidableEq, Repr

/-- Uncaught Python exceptions escaping `lambda_handler`: `KeyError`
from `ConversionType[...]` or `payload[...]`, `AttributeError` from
`None.upper()` when `conversion_type` is missing.  The handlers catch
only `RuntimeError`, so these propagate. -/
inductive LambdaError where
  | keyError (key : String)
  | attributeError
deriving DecidableEq, Repr

/-- Trace entry for one attempted call to an external collaborator. -/
inductive Effect where
  | storePut (it : Item)
  | storeUpdateMatched (expires_at : Nat)
  | crmUpdateLead (lead_id : String) (source : String)
      (gclid gbraid page_path : Option String)
  | adsUploadConversion (lead_id : String) (ct : ConversionType)
  | adsUploadAdjustment (lead_id : String) (ct : ConversionType)
deriving DecidableEq, Repr

/-- Success oracle for the external collaborators: whether each call, if
attempted, succeeds or raises `RuntimeError`. -/
structure Ext where
  storePutOk : Bool
  storeUpdateOk : Bool
  crmUpdateOk : Bool
  adsUploadOk : Bool
  adsAdjustOk : Bool
deriving DecidableEq, Repr

/-- All external calls succeed. -/
def allOkExt : Ext := ⟨true, true, true, true, true⟩

/-- Result of one handler invocation: the returned value (`none` models
a Python function falling through and returning `None`), the click-log
table after the invocation, and the trace of attempted external calls. -/
structure HandlerResult where
  resp : Option Response
  table : List Item
  effects : List Effect
deriving DecidableEq, Repr

/-- Decidable equality for `Except`, needed so route results can be
compared by `decide`. -/
instance instDecEqExcept {ε α : Type} [DecidableEq ε] [DecidableEq α] :
    DecidableEq (Except ε α)
  | .error a, .error b =>
      if h : a = b then .isTrue (by rw [h])
      else .isFalse (by intro c; cases c; exact h rfl)
  | .error _, .ok _ => .isFalse (by intro h; cases h)
  | .ok _, .error _ => .isFalse (by intro h; cases h)
  | .ok a, .ok b =>
      if h : a = b then .isTrue (by rw [h])
      else .isFalse (by intro c; cases c; exact h rfl)

/-- Result of the `/update-lead` route of `lambda_handler`: the outcome
(an uncaught exception or the handler's return value), the table after
the invocation, and the external-call trace. -/
structure RouteResult where
  outcome : Except LambdaError (Option Response)
  table : List Item
  effects : List Effect
deriving DecidableEq, Repr

/-- DynamoDB `put_item`: stores the item, replacing any existing item
with the same primary key `(pk, expires_at)`. -/
def putItem (table : List Item) (it : Item) : List Item :=
  it :: table.filter (fun x => !(x.pk == it.pk && x.expires_at == it.expires_at))

/-- DynamoDB `update_item` with `SET matched = :matched` (true) keyed on
`(pk = "click", expires_at = k)`.  There is NO ConditionExpression in
the source: the write is unconditional and succeeds regardless of the
current value of `matched`. -/
def update_item_set_matched (table : List Item) (k : Nat) : List Item :=
  table.map (fun x =>
    if x.pk == "click" && x.expires_at == k then { x with matched := true } else x)

/-- The query of `update_lead_handler`: partition key `pk = "click"`,
filter `matched = false`, descending by the `expires_at` sort key,
limit 1 — the most recent unmatched entry, as a (≤ 1 element) item
list. -/
def queryMostRecentUnmatched (table : List Item) : List Item :=
  let cands := table.filter (fun x => x.pk == "click" && x.matched == false)
  match cands.foldl
      (fun acc x =>
        match acc with
        | none => some x
        | some y => if y.expires_at < x.expires_at then some x else some y)
      none with
  | none => []
  | some x => [x]

/-- The item built by `persist_clicklog_to_db`: `created_at =
int(datetime.now().timestamp())`, `expires_at = int((now +
timedelta(minutes=CLICK_LOG_TTL_MINUTES)).timestamp())`,
`matched = False`. -/
def mkClickItem (ttlMinutes nowUs : Nat) (body : ClickBody) : Item :=
  { pk := "click"
    page_path := body.page_path
    gclid := body.gclid
    gbraid := body.gbraid
    created_at := nowUs / 1000000
    expires_at := (nowUs + ttlMinutes * 60 * 1000000) / 1000000
    matched := false }

/-- `persist_clicklog_to_db` (lines 169-205): `put_item` of the new
entry; 200 on success, 500 when the store write raises. -/
def persist_clicklog_to_db (ext : Ext) (table : List Item)
    (ttlMinutes nowUs : Nat) (body : ClickBody) : HandlerResult :=
  let it := mkClickItem ttlMinutes nowUs body
  if ext.storePutOk then
    ⟨some ⟨200, "Click log persisted successfully."⟩,
     putItem table it, [.storePut it]⟩
  else
    ⟨some ⟨500, "Something went wrong while persisting the click log."⟩,
     table, [.storePut it]⟩

/-- `click_log_handler` (lines 82-93): 400 when neither `gclid` nor
`gbraid` is truthy, otherwise persist. -/
def click_log_handler (ext : Ext) (table : List Item)
    (ttlMinutes nowUs : Nat) (body : ClickBody) : HandlerResult :=
  if !(truthy body.gclid || truthy body.gbraid) then
    ⟨some ⟨400, "Missing required parameter gclid and gbraid"⟩, table, []⟩
  else
    persist_clicklog_to_db ext table ttlMinutes nowUs body

/-- `extract_lead_id` (lines 278-285): reads
`payload["leads[status][0][id]"]` from the decoded form payload
(decoding itself is plumbing, out of scope); `none` models the
`KeyError` on a missing key. -/
def extract_lead_id (payload : List (String × String)) : Option String :=
  payload.lookup "leads[status][0][id]"

/-- `extract_incoming_lead_id` (lines 288-295): reads
`payload["leads[add][0][id]"]`. -/
def extract_incoming_lead_id (payload : List (String × String)) : Option String :=
  payload.lookup "leads[add][0][id]"

/-- `update_lead` (lines 208-275).  `items` is the pre-queried snapshot
passed in by `update_lead_handler`.  Three cases in the source:
- no items: tag the lead organic via the CRM (200/500);
- most recent item unexpired: unconditionally `update_item` matched =
  true, then CRM cpc tag, then ads conversion upload, all in one `try`
  sharing one `except RuntimeError` message (200/500);
- most recent item expired: the `if` has no `else` — the function falls
  through and returns Python `None`, with no call made. -/
def update_lead (ext : Ext) (table : List Item) (nowUs : Nat)
    (items : List Item) (conversion_type : ConversionType)
    (lead_id : String) : HandlerResult :=
  match items with
  | [] =>
      if ext.crmUpdateOk then
        ⟨some ⟨200, "Lead updated with organic source."⟩, table,
         [.crmUpdateLead lead_id "organic" none none none]⟩
      else
        ⟨some ⟨500, "Lead with organic source could not be updated."⟩, table,
         [.crmUpdateLead lead_id "organic" none none none]⟩
  | item :: _ =>
      if nowUs ≤ item.expires_at * 1000000 then
        if ext.storeUpdateOk then
          let table1 := update_item_set_matched table item.expires_at
          if ext.crmUpdateOk then
            if ext.adsUploadOk then
              ⟨some ⟨200, "Lead updated with matched gclid."⟩, table1,
               [.storeUpdateMatched item.expires_at,
                .crmUpdateLead lead_id "cpc" item.gclid item.gbraid item.page_path,
                .adsUploadConversion lead_id conversion_type]⟩
            else
              ⟨some ⟨500, "Lead with cpc source could not be updated."⟩, table1,
               [.storeUpdateMatched item.expires_at,
                .crmUpdateLead lead_id "cpc" item.gclid item.gbraid item.page_path,
                .adsUploadConversion lead_id conversion_type]⟩
          else
            ⟨some ⟨500, "Lead with cpc source could not be updated."⟩, table1,
             [.storeUpdateMatched item.expires_at,
              .crmUpdateLead lead_id "cpc" item.gclid item.gbraid item.page_path]⟩
        else
          ⟨some ⟨500, "Lead with cpc source could not be updated."⟩, table,
           [.storeUpdateMatched item.expires_at]⟩
      else
        ⟨none, table, []⟩

/-- `update_lead_handler` (lines 96-107): query the most recent
unmatched entry, then `update_lead` with the incoming lead id. -/
def update_lead_handler (ext : Ext) (table : List Item) (nowUs : Nat)
    (conversion_type : ConversionType)
    (payload : List (String × String)) : RouteResult :=
  let items := queryMostRecentUnmatched table
  match extract_incoming_lead_id payload with
  | none => ⟨.error (.keyError "leads[add][0][id]"), table, []⟩
  | some lead_id =>
      let r := update_lead ext table nowUs items conversion_type lead_id
      ⟨.ok r.resp, r.table, r.effects⟩

/-- `upload_conversion_handler` (lines 110-138) with the lead id already
extracted: ads conversion upload from the CRM-constructed lead payload;
its `except` branch reuses the click-log persistence message verbatim,
as the source does. -/
def upload_conversion_handler (ext : Ext) (table : List Item)
    (conversion_type : ConversionType) (lead_id : String) : HandlerResult :=
  if ext.adsUploadOk then
    ⟨some ⟨200, "Conversion uploaded successfully."⟩, table,
     [.adsUploadConversion lead_id conversion_type]⟩
  else
    ⟨some ⟨500, "Something went wrong while persisting the click log."⟩, table,
     [.adsUploadConversion lead_id conversion_type]⟩

/-- `upload_conversion_adjustment_handler` (lines 141-166): extracts the
lead id with `extract_incoming_lead_id` — the `leads[add][0][id]` field
— then uploads a conversion adjustment.  The `KeyError` of a missing
field is not a `RuntimeError`, so it escapes the `try`. -/
def upload_conversion_adjustment_handler (ext : Ext) (table : List Item)
    (conversion_type : ConversionType)
    (payload : List (String × String)) : RouteResult :=
  match extract_incoming_lead_id payload with
  | none => ⟨.error (.keyError "leads[add][0][id]"), table, []⟩
  | some lead_id =>
      if ext.adsAdjustOk then
        ⟨.ok (some ⟨200, "Conversion adjustment uploaded successfully."⟩), table,
         [.adsUploadAdjustment lead_id conversion_type]⟩
      else
        ⟨.ok (some ⟨500,
            "Something went wrong while uploading the click conversion adjustment."⟩),
         table, [.adsUploadAdjustment lead_id conversion_type]⟩

/-- The four dispatch paths of `lambda_handler` for `/update-lead`. -/
inductive Path where
  | adjustment
  | manualUpload
  | matchedLead
  | directUpload
deriving DecidableEq, Repr, Fintype

/-- `query_string_params.get(...) == "True"` — the flag is true exactly
when the query-string value is the literal string `"True"`. -/
def flagIsTrue (v : Option String) : Bool := v == some "True"

/-- The branch structure of `lambda_handler` lines 58-77: adjustment
first, then `MESSAGE_RECEIVED` split on `is_manual`, then direct
upload. -/
def selectedPath (ct : ConversionType) (is_adj is_man : Bool) : Path :=
  if is_adj then .adjustment
  else if ct = .MESSAGE_RECEIVED then
    if is_man then .manualUpload else .matchedLead
  else .directUpload

/-- The `/update-lead` branch of `lambda_handler` (lines 45-77): read
`conversion_type` from the query string (`None.upper()` raises when
absent, the enum lookup raises `KeyError` when unrecognized), compute
the two flags, and dispatch on `selectedPath`. -/
def update_lead_route (ext : Ext) (table : List Item) (nowUs : Nat)
    (qs : List (String × String))
    (payload : List (String × String)) : RouteResult :=
  match qs.lookup "conversion_type" with
  | none => ⟨.error .attributeError, table, []⟩
  | some ctKey =>
      match conversionTypeOfName (upperAscii ctKey) with
      | none => ⟨.error (.keyError (upperAscii ctKey)), table, []⟩
      | some ct =>
          let is_adj := flagIsTrue (qs.lookup "is_adjustment")
          let is_man := flagIsTrue (qs.lookup "is_manual")
          match selectedPath ct is_adj is_man with
          | .adjustment =>
              upload_conversion_adjustment_handler ext table ct payload
          | .manualUpload =>
              match extract_incoming_lead_id payload with
              | none => ⟨.error (.keyError "leads[add][0][id]"), table, []⟩
              | some lid =>
                  let r := upload_conversion_handler ext table ct lid
                  ⟨.ok r.resp, r.table, r.effects⟩
          | .matchedLead =>
              update_lead_handler ext table nowUs ct payload
          | .directUpload =>
              match extract_lead_id payload with
              | none => ⟨.error (.keyError "leads[status][0][id]"), table, []⟩
              | some lid =>
                  let r := upload_conversion_handler ext table ct lid
                  ⟨.ok r.resp, r.table, r.effects⟩

/-- A pending click-log entry: unmatched, created at second 100,
expiring at second 1000. -/
def pendingEntry : Item :=
  { pk := "click", page_path := some "/p", gclid := some "g", gbraid := none
    created_at := 100, expires_at := 1000, matched := false }

/-- Oracle where only the CRM lead update fails. -/
def crmFailExt : Ext := ⟨true, true, false, true, true⟩

/-- Oracle where only the ads conversion upload fails. -/
def adsFailExt : Ext := ⟨true, true, true, false, true⟩

/-- A click-log body carrying a gclid. -/
def dupBody : ClickBody := ⟨some "g", none, some "/p"⟩

/-- A flag value other than the literal `"True"` parses as false. -/
lemma flagIsTrue_eq_false {v : Option String} (hv : v ≠ some "True") :
    flagIsTrue v = false := by
  unfold flagIsTrue
  exact beq_eq_false_iff_ne.mpr hv

/-- C1: the claim says the claim step is a conditional update under
which at most one match attempt on the same entry ever observes a
successful claim.  The source's `update_item` has no
ConditionExpression, and the query and the claim are separate store
calls, so in the interleaved schedule of two concurrent invocations
(both queries read the store before either claim is written) both
attempts take the matched branch: both return 200 "Lead updated with
matched gclid." and both upload a conversion for the same entry. -/
theorem c1_unconditional_claim_race :
    (update_lead allOkExt [pendingEntry] (900 * 1000000)
        (queryMostRecentUnmatched [pendingEntry]) .MESSAGE_RECEIVED "L1").resp
      = some ⟨200, "Lead updated with matched gclid."⟩ ∧
    (update_lead allOkExt
        (update_lead allOkExt [pendingEntry] (900 * 1000000)
          (queryMostRecentUnmatched [pendingEntry]) .MESSAGE_RECEIVED "L1").table
        (900 * 1000000)
        (queryMostRecentUnmatched [pendingEntry]) .MESSAGE_RECEIVED "L2").resp
      = some ⟨200, "Lead updated with matched gclid."⟩ ∧
    Effect.adsUploadConversion "L1" .MESSAGE_RECEIVED ∈
      (update_lead allOkExt [pendingEntry] (900 * 1000000)
        (queryMostRecentUnmatched [pendingEntry]) .MESSAGE_RECEIVED "L1").effects ∧
    Effect.adsUploadConversion "L2" .MESSAGE_RECEIVED ∈
      (update_lead allOkExt
        (update_lead allOkExt [pendingEntry] (900 * 1000000)
          (queryMostRecentUnmatched [pendingEntry]) .MESSAGE_RECEIVED "L1").table
        (900 * 1000000)
        (queryMostRecentUnmatched [pendingEntry]) .MESSAGE_RECEIVED "L2").effects := by
  decide

/-- C2: the claim says a lead event finding only an expired (not yet
purged) entry yields NoMatch, an organic CRM tag and a 200 response.
On the code, the query still returns the expired unmatched entry, and
`update_lead`'s `if now <= expires_at` has no `else`: at second 1200
(entry expires at 1000) the function falls through and returns `None` —
no CRM call, no upload, no response at all. -/
theorem c2_expired_entry_falls_through :
    queryMostRecentUnmatched [pendingEntry] = [pendingEntry] ∧
    update_lead allOkExt [pendingEntry] (1200 * 1000000)
        (queryMostRecentUnmatched [pendingEntry]) .MESSAGE_RECEIVED "42"
      = ⟨none, [pendingEntry], []⟩ := by
  decide

/-- C6: dispatch is total and deterministic in `(conversion_type,
is_adjustment, is_manual)`: exactly one of the four paths is selected,
with adjustment first, then MESSAGE_RECEIVED split on `is_manual`, then
direct upload — stated as a full characterization of `selectedPath`. -/
theorem c6_dispatch_total_deterministic :
    ∀ (ct : ConversionType) (adj man : Bool),
      (selectedPath ct adj man = .adjustment ↔ adj = true) ∧
      (selectedPath ct adj man = .manualUpload ↔
        adj = false ∧ ct = .MESSAGE_RECEIVED ∧ man = true) ∧
      (selectedPath ct adj man = .matchedLead ↔
        adj = false ∧ ct = .MESSAGE_RECEIVED ∧ man = false) ∧
      (selectedPath ct adj man = .directUpload ↔
        adj = false ∧ ct ≠ .MESSAGE_RECEIVED) := by
  decide

/-- C9: every entry the click-log handler persists satisfies
`expires_at = created_at + TTL * 60` on the stored (truncated) epoch
seconds, for any TTL in minutes and any wall-clock microsecond time. -/
theorem c9_persisted_expiry_is_created_plus_ttl :
    ∀ (ext : Ext) (table : List Item) (ttlMinutes nowUs : Nat)
      (body : ClickBody) (it : Item),
      Effect.storePut it ∈
        (click_log_handler ext table ttlMinutes nowUs body).effects →
      it.expires_at = it.created_at + ttlMinutes * 60 := by
  intro ext table ttl nowUs body it h
  have hmk : it = mkClickItem ttl nowUs body := by
    simp only [click_log_handler, persist_clicklog_to_db] at h
    split at h
    · simp at h
    · split at h <;> simpa using h
  subst hmk
  simp only [mkClickItem]
  exact Nat.add_mul_div_right nowUs (ttl * 60) (by norm_num)

/-- Witness for C9 at TTL 15 minutes and time 0. -/
theorem c9_witness :
    Effect.storePut (mkClickItem 15 0 dupBody) ∈
        (click_log_handler allOkExt [] 15 0 dupBody).effects ∧
    (mkClickItem 15 0 dupBody).expires_at
      = (mkClickItem 15 0 dupBody).created_at + 15 * 60 :=
  ⟨by decide,
   c9_persisted_expiry_is_created_plus_ttl allOkExt [] 15 0 dupBody
     (mkClickItem 15 0 dupBody) (by decide)⟩

/-- C10: `is_adjustment` / `is_manual` are true exactly when the
query-string value is the literal string `"True"`; `"true"`, `"TRUE"`,
`"1"` and an absent parameter all parse as false and route dispatch
away from the adjustment and manual-upload branches. -/
theorem c10_flag_literal_true_only :
    (∀ v : Option String, flagIsTrue v = true ↔ v = some "True") ∧
    flagIsTrue (some "true") = false ∧
    flagIsTrue (some "TRUE") = false ∧
    flagIsTrue (some "1") = false ∧
    flagIsTrue none = false ∧
    (∀ (ct : ConversionType) (v : Option String) (man : Bool),
      v ≠ some "True" → selectedPath ct (flagIsTrue v) man ≠ .adjustment) ∧
    (∀ (ct : ConversionType) (adj : Bool) (v : Option String),
      v ≠ some "True" → selectedPath ct adj (flagIsTrue v) ≠ .manualUpload) := by
  refine ⟨fun v => ?_, by decide, by decide, by decide, by decide, ?_, ?_⟩
  · constructor
    · intro h
      exact eq_of_beq h
    · intro h
      subst h
      decide
  · intro ct v man hv
    rw [flagIsTrue_eq_false hv]
    revert ct man
    decide
  · intro ct adj v hv
    rw [flagIsTrue_eq_false hv]
    revert ct adj
    decide

/-- Witness for C10 at `"true"` and `"1"`. -/
theorem c10_witness :
    selectedPath .MESSAGE_RECEIVED (flagIsTrue (some "true")) true ≠ .adjustment ∧
    selectedPath .MESSAGE_RECEIVED true (flagIsTrue (some "1")) ≠ .manualUpload :=
  ⟨c10_flag_literal_true_only.2.2.2.2.2.1 .MESSAGE_RECEIVED (some "true") true
     (by decide),
   c10_flag_literal_true_only.2.2.2.2.2.2 .MESSAGE_RECEIVED true (some "1")
     (by decide)⟩

/-- C3 counterexample: with `is_adjustment=True` and a payload carrying
both identifier fields (`leads[add][0][id]=7`,
`leads[status][0][id]=9`), the adjustment upload is made with lead id
"7" — the lead-added field — not "9", the status-changed field the
claim names. -/
theorem c3_counterexample :
    (update_lead_route allOkExt [] 0
        [("conversion_type", "lead_created"), ("is_adjustment", "True")]
        [("leads[add][0][id]", "7"), ("leads[status][0][id]", "9")]).effects
      = [.adsUploadAdjustment "7" .LEAD_CREATED] ∧
    List.lookup "leads[status][0][id]"
        [("leads[add][0][id]", "7"), ("leads[status][0][id]", "9")] = some "9" ∧
    (update_lead_route allOkExt [] 0
        [("conversion_type", "lead_created"), ("is_adjustment", "True")]
        [("leads[add][0][id]", "7"), ("leads[status][0][id]", "9")]).effects
      ≠ [.adsUploadAdjustment "9" .LEAD_CREATED] := by
  decide

/-- C3 amended: with `is_adjustment=True`, the dispatcher takes the
adjustment path, extracts the lead id from the `leads[add][0][id]`
(lead-added) field via `extract_incoming_lead_id`, uploads exactly one
conversion adjustment with `(conversion_type, lead_id)`, leaves the
click-log table untouched and involves neither the matcher nor the
store. -/
theorem c3_adjustment_extracts_add_field :
    ∀ (ext : Ext) (table : List Item) (nowUs : Nat)
      (qs payload : List (String × String)) (name : String)
      (ct : ConversionType) (v : String),
      qs.lookup "conversion_type" = some name →
      conversionTypeOfName (upperAscii name) = some ct →
      qs.lookup "is_adjustment" = some "True" →
      payload.lookup "leads[add][0][id]" = some v →
      update_lead_route ext table nowUs qs payload =
        ⟨.ok (some (if ext.adsAdjustOk then
            ⟨200, "Conversion adjustment uploaded successfully."⟩
          else
            ⟨500,
             "Something went wrong while uploading the click conversion adjustment."⟩)),
         table, [.adsUploadAdjustment v ct]⟩ := by
  intro ext table nowUs qs payload name ct v h1 h2 h3 h4
  cases hA : ext.adsAdjustOk <;>
    simp [update_lead_route, h1, h2, h3, h4, flagIsTrue, selectedPath,
      upload_conversion_adjustment_handler, extract_incoming_lead_id, hA]

/-- Witness for C3's amended theorem at a concrete request. -/
theorem c3_witness :
    update_lead_route allOkExt [] 0
        [("conversion_type", "qualified"), ("is_adjustment", "True")]
        [("leads[add][0][id]", "11")]
      = ⟨.ok (some ⟨200, "Conversion adjustment uploaded successfully."⟩),
         [], [.adsUploadAdjustment "11" .QUALIFIED]⟩ := by
  have h := c3_adjustment_extracts_add_field allOkExt [] 0
    [("conversion_type", "qualified"), ("is_adjustment", "True")]
    [("leads[add][0][id]", "11")] "qualified" .QUALIFIED "11"
    (by decide) (by decide) (by decide) (by decide)
  simpa using h

/-- C4 counterexample: on the matched branch, an invocation where only
the CRM update fails and one where only the ads upload fails return the
very same status+message pair (500, "Lead with cpc source could not be
updated.") — the outcome does not identify which downstream call
failed. -/
theorem c4_counterexample :
    (update_lead crmFailExt [pendingEntry] (900 * 1000000)
        (queryMostRecentUnmatched [pendingEntry]) .MESSAGE_RECEIVED "L").resp
      = (update_lead adsFailExt [pendingEntry] (900 * 1000000)
          (queryMostRecentUnmatched [pendingEntry]) .MESSAGE_RECEIVED "L").resp ∧
    (update_lead crmFailExt [pendingEntry] (900 * 1000000)
        (queryMostRecentUnmatched [pendingEntry]) .MESSAGE_RECEIVED "L").resp
      = some ⟨500, "Lead with cpc source could not be updated."⟩ := by
  decide

/-- C4 amended: the matched branch of `update_lead` wraps the store
claim, the CRM cpc update and the ads conversion upload in one `try`
with a single `except RuntimeError`; whichever of the three fails, the
response is the identical pair (500, "Lead with cpc source could not be
updated."), so CRM and ads failures are conflated, not distinct. -/
theorem c4_failures_share_cpc_message :
    ∀ (ext : Ext) (table : List Item) (nowUs : Nat) (item : Item)
      (rest : List Item) (ct : ConversionType) (lead_id : String),
      nowUs ≤ item.expires_at * 1000000 →
      (ext.storeUpdateOk = false ∨ ext.crmUpdateOk = false ∨
        ext.adsUploadOk = false) →
      (update_lead ext table nowUs (item :: rest) ct lead_id).resp
        = some ⟨500, "Lead with cpc source could not be updated."⟩ := by
  intro ext table nowUs item rest ct lead_id h1 h2
  rcases h2 with h | h | h <;>
    cases hs : ext.storeUpdateOk <;> cases hc : ext.crmUpdateOk <;>
      cases ha : ext.adsUploadOk <;>
        simp_all [update_lead]

/-- Witness for C4's amended theorem with a failing CRM update. -/
theorem c4_witness :
    (update_lead crmFailExt [pendingEntry] (900 * 1000000)
        [pendingEntry] .MESSAGE_RECEIVED "L7").resp
      = some ⟨500, "Lead with cpc source could not be updated."⟩ :=
  c4_failures_share_cpc_message crmFailExt [pendingEntry] (900 * 1000000)
    pendingEntry [] .MESSAGE_RECEIVED "L7" (by decide) (Or.inr (Or.inl rfl))

/-- C5 counterexample: a `/update-lead` request with
`conversion_type=bogus` makes no store, CRM or ads call, but its
outcome is the uncaught `KeyError` of the enum lookup — there is no
response at all, in particular no 400 status code. -/
theorem c5_counterexample :
    (update_lead_route allOkExt [] 0 [("conversion_type", "bogus")] []).outcome
      = .error (.keyError "BOGUS") ∧
    (update_lead_route allOkExt [] 0 [("conversion_type", "bogus")] []).effects
      = [] ∧
    ¬ ∃ r : Response,
        (update_lead_route allOkExt [] 0
          [("conversion_type", "bogus")] []).outcome = .ok (some r) ∧
        r.statusCode = 400 := by
  refine ⟨by decide, by decide, ?_⟩
  rintro ⟨r, hr, -⟩
  have h : (update_lead_route allOkExt [] 0
      [("conversion_type", "bogus")] []).outcome = .error (.keyError "BOGUS") := by
    decide
  rw [h] at hr
  cases hr

/-- C5 amended: an unrecognized `conversion_type` name is rejected
before any side effect — the table is untouched and no external call is
attempted — but by the uncaught `KeyError` of
`ConversionType[name.upper()]` escaping the handler (a 500-style
function error), not by a 400 validation response. -/
theorem c5_unrecognized_type_uncaught_keyerror :
    ∀ (ext : Ext) (table : List Item) (nowUs : Nat)
      (qs payload : List (String × String)) (name : String),
      qs.lookup "conversion_type" = some name →
      conversionTypeOfName (upperAscii name) = none →
      update_lead_route ext table nowUs qs payload
        = ⟨.error (.keyError (upperAscii name)), table, []⟩ := by
  intro ext table nowUs qs payload name h1 h2
  simp [update_lead_route, h1, h2]

/-- Witness for C5's amended theorem at a concrete request. -/
theorem c5_witness :
    update_lead_route allOkExt [] 0 [("conversion_type", "nonsense")] []
      = ⟨.error (.keyError "NONSENSE"), [], []⟩ :=
  c5_unrecognized_type_uncaught_keyerror allOkExt [] 0
    [("conversion_type", "nonsense")] [] "nonsense" (by decide) (by decide)

/-- C7 counterexample: submitting the same click-log body twice in the
same epoch second yields identical `(pk, expires_at)` keys, so the
second `put_item` replaces the first entry — the store holds one entry,
not two. -/
theorem c7_counterexample :
    (persist_clicklog_to_db allOkExt
        (persist_clicklog_to_db allOkExt [] 15 (1000 * 1000000) dupBody).table
        15 (1000 * 1000000) dupBody).table
      = [mkClickItem 15 (1000 * 1000000) dupBody] ∧
    ((persist_clicklog_to_db allOkExt
        (persist_clicklog_to_db allOkExt [] 15 (1000 * 1000000) dupBody).table
        15 (1000 * 1000000) dupBody).table).length ≠ 2 := by
  decide

/-- C7 amended: persisting the same body twice creates two independent
entries provided the two writes fall in distinct stored epoch seconds
(distinct `expires_at` sort keys): both entries are then in the store
and they are distinct records.  When the stored timestamps coincide,
the second `put_item` replaces the first (same `(pk, expires_at)`
key). -/
theorem c7_distinct_seconds_two_entries :
    ∀ (ext : Ext) (table : List Item) (ttl t1 t2 : Nat) (b : ClickBody),
      ext.storePutOk = true →
      (mkClickItem ttl t1 b).expires_at ≠ (mkClickItem ttl t2 b).expires_at →
      mkClickItem ttl t1 b ∈
        (persist_clicklog_to_db ext
          (persist_clicklog_to_db ext table ttl t1 b).table ttl t2 b).table ∧
      mkClickItem ttl t2 b ∈
        (persist_clicklog_to_db ext
          (persist_clicklog_to_db ext table ttl t1 b).table ttl t2 b).table ∧
      mkClickItem ttl t1 b ≠ mkClickItem ttl t2 b := by
  intro ext table ttl t1 t2 b hOk hne
  refine ⟨?_, ?_, ?_⟩
  · simp only [persist_clicklog_to_db, hOk, if_true, putItem]
    apply List.mem_cons_of_mem
    apply List.mem_filter.mpr
    refine ⟨List.mem_cons_self _ _, ?_⟩
    simp [hne]
  · simp only [persist_clicklog_to_db, hOk, if_true, putItem]
    exact List.mem_cons_self _ _
  · intro hEq
    exact hne (congrArg Item.expires_at hEq)

/-- Witness for C7's amended theorem one second apart. -/
theorem c7_witness :
    mkClickItem 15 0 dupBody ∈
      (persist_clicklog_to_db allOkExt
        (persist_clicklog_to_db allOkExt [] 15 0 dupBody).table
        15 1000000 dupBody).table ∧
    mkClickItem 15 1000000 dupBody ∈
      (persist_clicklog_to_db allOkExt
        (persist_clicklog_to_db allOkExt [] 15 0 dupBody).table
        15 1000000 dupBody).table ∧
    mkClickItem 15 0 dupBody ≠ mkClickItem 15 1000000 dupBody :=
  c7_distinct_seconds_two_entries allOkExt [] 15 0 1000000 dupBody rfl
    (by decide)

/-- C8 counterexample: a body whose `gclid` key is present but holds
the empty string is treated as missing by the handler's Python
truthiness test `if not (gclid or gbraid)`: the request gets a 400 and
nothing is persisted, although an identifier is present in the body. -/
theorem c8_counterexample :
    click_log_handler allOkExt [] 15 0 ⟨some "", none, some "/p"⟩
      = ⟨some ⟨400, "Missing required parameter gclid and gbraid"⟩, [], []⟩ ∧
    (⟨some "", none, some "/p"⟩ : ClickBody).gclid.isSome = true := by
  decide

/-- C8 amended: with "present" meaning present and non-empty (Python
truthiness), the handler returns 400 and persists nothing when both
identifiers are absent-or-empty; when at least one is non-empty and the
store write succeeds it persists an entry with `matched = false` and
returns 200; when the store write fails it returns 500 and the table is
unchanged. -/
theorem c8_handler_statuses :
    ∀ (ext : Ext) (table : List Item) (ttl nowUs : Nat) (body : ClickBody),
      (truthy body.gclid = false ∧ truthy body.gbraid = false →
        click_log_handler ext table ttl nowUs body
          = ⟨some ⟨400, "Missing required parameter gclid and gbraid"⟩,
             table, []⟩) ∧
      ((truthy body.gclid = true ∨ truthy body.gbraid = true) →
        ext.storePutOk = true →
        click_log_handler ext table ttl nowUs body
          = ⟨some ⟨200, "Click log persisted successfully."⟩,
             putItem table (mkClickItem ttl nowUs body),
             [.storePut (mkClickItem ttl nowUs body)]⟩ ∧
        (mkClickItem ttl nowUs body).matched = false) ∧
      ((truthy body.gclid = true ∨ truthy body.gbraid = true) →
        ext.storePutOk = false →
        click_log_handler ext table ttl nowUs body
          = ⟨some ⟨500, "Something went wrong while persisting the click log."⟩,
             table, [.storePut (mkClickItem ttl nowUs body)]⟩) := by
  intro ext table ttl nowUs body
  refine ⟨?_, ?_, ?_⟩
  · rintro ⟨h1, h2⟩
    simp [click_log_handler, h1, h2]
  · rintro (h | h) hOk <;>
      simp [click_log_handler, persist_clicklog_to_db, h, hOk, mkClickItem]
  · rintro (h | h) hOk <;>
      simp [click_log_handler, persist_clicklog_to_db, h, hOk]

/-- Witness for C8's amended theorem at three concrete bodies. -/
theorem c8_witness :
    click_log_handler allOkExt [] 15 0 ⟨none, some "", some "/p"⟩
      = ⟨some ⟨400, "Missing required parameter gclid and gbraid"⟩, [], []⟩ ∧
    click_log_handler allOkExt [] 15 0 dupBody
      = ⟨some ⟨200, "Click log persisted successfully."⟩,
         putItem [] (mkClickItem 15 0 dupBody),
         [.storePut (mkClickItem 15 0 dupBody)]⟩ ∧
    click_log_handler ⟨false, true, true, true, true⟩ [] 15 0 dupBody
      = ⟨some ⟨500, "Something went wrong while persisting the click log."⟩,
         [], [.storePut (mkClickItem 15 0 dupBody)]⟩ :=
  ⟨(c8_handler_statuses allOkExt [] 15 0 ⟨none, some "", some "/p"⟩).1
     ⟨rfl, rfl⟩,
   ((c8_handler_statuses allOkExt [] 15 0 dupBody).2.1
     (Or.inl rfl) rfl).1,
   (c8_handler_statuses ⟨false, true, true, true, true⟩ [] 15 0 dupBody).2.2
     (Or.inl rfl) rfl⟩

end KommoWhatsapp
